import Mathlib

/-!
Shallow embedding of the real-time session layer of the voice-ai/web-sdk
repository (the `VoiceAI` class of the main SDK module, together with the
connection types of `src/types.ts`).

The embedding models the session state machine as a pure state-transition
system.  Network and transport effects are passed in as explicit parameters
(`respond` for the connection-details negotiation endpoint, `attemptResult`
for the per-attempt outcome of the raced audio-setup / transport-connect
join, `decode` for the base64+JSON decoding of a JWT payload) and every
operation returns, besides the successor state, the lists of requests it
issued and the events it fanned out to the corresponding subscriber sets.
-/

namespace VoiceAI

/-- `ConnectionDetails` from `src/types.ts` (lines 17-21): exactly the three
fields `serverUrl`, `participantToken`, `callId`.  The interface has no
end-credential field of any kind. -/
structure ConnectionDetails where
  serverUrl : String
  participantToken : String
  callId : String
deriving DecidableEq

/-- `ConnectionStatus` from `src/types.ts` (lines 53-58); the optional
fields `error?` and `callId?` are `Option`s (absent = `none`). -/
structure ConnectionStatus where
  connected : Bool
  connecting : Bool
  error : Option String
  callId : Option String
deriving DecidableEq

/-- A `Partial<ConnectionStatus>` as passed to `updateStatus`: a field that
is `none` is a key absent from the patch object literal (every patch in the
source writes only concrete values, never `undefined`). -/
structure StatusPatch where
  connected : Option Bool := none
  connecting : Option Bool := none
  error : Option String := none
  callId : Option String := none

/-- `AgentState` union type from `src/types.ts` (line 60). -/
inductive AgentState
  | disconnected
  | connecting
  | initializing
  | listening
  | thinking
  | speaking
deriving DecidableEq

/-- `AgentStateInfo` from `src/types.ts` (lines 62-65). -/
structure AgentStateInfo where
  state : AgentState
  agentParticipantId : Option String
deriving DecidableEq

/-- `MicrophoneState` from `src/types.ts` (lines 72-75). -/
structure MicrophoneState where
  enabled : Bool
  muted : Bool
deriving DecidableEq

/-- A track publication of the transport, carrying the two flags the SDK
reads (`isSubscribed`, `isMuted`). -/
structure TrackPublication where
  isSubscribed : Bool
  isMuted : Bool
deriving DecidableEq

/-- The transport's local participant; `micPublication` models
`getTrackPublication(Track.Source.Microphone)` (`none` = `undefined`). -/
structure LocalParticipant where
  micPublication : Option TrackPublication
deriving DecidableEq

/-- The transport room; `localParticipant` is optional because the SDK
always guards it (`this.room?.localParticipant`). -/
structure Room where
  localParticipant : Option LocalParticipant
deriving DecidableEq

/-- A freshly constructed `new Room()`: a local participant exists and has
no microphone publication yet. -/
def Room.new : Room := { localParticipant := some { micPublication := none } }

/-- `ConnectionOptions` from `src/types.ts` (lines 23-42), plus the
`testMode` flag that the SDK reads off the options object (it is accessed
by `getConnectionDetails` and documented on `connect`).  `agentConfig` is
modelled by its `JSON.stringify` serialization and `environment` by its
string (or serialized-object) form; the opaque `audioOptions` field only
feeds the local audio-track constructor, which is outside the modelled
fragment, and is omitted. -/
structure ConnectionOptions where
  apiUrl : Option String := none
  apiKey : Option String := none
  agentId : Option String := none
  agentConfig : Option String := none
  metadata : Option String := none
  environment : Option String := none
  autoPublishMic : Option Bool := none
  preConnectBuffer : Option Bool := none
  testMode : Option Bool := none

/-- The decoded middle JWT segment: `exp` is `none` when the parsed payload
has no expiry field (JavaScript `payload.exp` is `undefined`).  Numeric
JSON values are modelled as integers. -/
structure JwtPayload where
  exp : Option Int
deriving DecidableEq

/-- The whole-instance state of a `VoiceAI` object: the private fields of
the class (main module, lines 1161-1174) that the modelled methods read or
write, together with the construction-time `apiKey` and `apiUrl`. -/
structure ClientState where
  apiKey : String
  apiUrl : String
  room : Option Room
  connectionStatus : ConnectionStatus
  cachedConnectionDetails : Option ConnectionDetails
  currentAgentState : AgentState
  agentParticipantId : Option String

/-- The field initializers of the class (lines 1161-1174): no room, status
`{connected: false, connecting: false}`, no cached details, agent state
`disconnected`, no agent participant. -/
def initialState (apiKey apiUrl : String) : ClientState where
  apiKey := apiKey
  apiUrl := apiUrl
  room := none
  connectionStatus := { connected := false, connecting := false, error := none, callId := none }
  cachedConnectionDetails := none
  currentAgentState := AgentState.disconnected
  agentParticipantId := none

/-- JavaScript `a || b` on an optional string: an absent or empty string is
falsy and falls through to the default. -/
def jsOrStr (a : Option String) (b : String) : String :=
  match a with
  | some s => if s = "" then b else s
  | none => b

/-- JavaScript truthiness of an optional string (`undefined` and `""` are
falsy). -/
def jsTruthyStr (a : Option String) : Bool :=
  match a with
  | some s => s ≠ ""
  | none => false

/-- JavaScript `x || undefined` on a nullable string field, as used for
`agentParticipantId`: `null` and `""` both collapse to `undefined`. -/
def jsOrUndefined (o : Option String) : Option String :=
  match o with
  | some s => if s = "" then none else some s
  | none => none

/-- The object-spread merge `{ ...this.connectionStatus, ...status }`
performed by `updateStatus` (lines 1751-1754): a key present in the patch
wins, every other key keeps its previous value.  The status record is NOT
replaced wholesale: fields the patch does not name are carried over. -/
def mergeStatus (s : ConnectionStatus) (p : StatusPatch) : ConnectionStatus where
  connected := p.connected.getD s.connected
  connecting := p.connecting.getD s.connecting
  error := match p.error with
    | some e => some e
    | none => s.error
  callId := match p.callId with
    | some c => some c
    | none => s.callId

/-- `updateStatus` (lines 1751-1754): merge the patch into the status
record and notify every status subscriber with the merged record (the
returned `ConnectionStatus` is the event fanned out to the handler set). -/
def updateStatus (s : ClientState) (p : StatusPatch) : ClientState × ConnectionStatus :=
  let st := mergeStatus s.connectionStatus p
  ({ s with connectionStatus := st }, st)

/-- `updateAgentState` (lines 1745-1749): a redundant transition
(`state === currentAgentState`) returns without touching state or firing
any event; otherwise the state is stored and one `AgentStateInfo` event is
emitted to the agent-state subscriber set. -/
def updateAgentState (s : ClientState) (state : AgentState) :
    ClientState × List AgentStateInfo :=
  if s.currentAgentState = state then (s, [])
  else
    ({ s with currentAgentState := state },
     [{ state := state, agentParticipantId := jsOrUndefined s.agentParticipantId }])

/-- JavaScript `String.prototype.split('.')` over the character list of a
string: splits on every dot, keeping empty segments, and maps the empty
string to `[""]`. -/
def splitOnDot : List Char → List String
  | [] => [""]
  | c :: cs =>
    let rest := splitOnDot cs
    if c = '.' then "" :: rest
    else
      match rest with
      | [] => [String.mk [c]]
      | sfirst :: ss => String.mk (c :: sfirst.data) :: ss

/-- `isTokenExpired` (lines 1448-1458).  `decode` stands for the
`JSON.parse(atob(...))` composition applied to the middle segment: `none`
models a thrown decoding/parsing error, and a payload without an `exp`
field (or one whose parse result is not an object) is `some` a payload with
`exp := none`.  `now` is `Date.now()` in milliseconds.  The falsy check
`!payload.exp` also treats an expiry of exactly `0` as missing; otherwise
the token is expired iff `exp * 1000 <= now + 60 * 1000`. -/
def isTokenExpired (decode : String → Option JwtPayload) (now : Int)
    (token : String) : Bool :=
  let parts := splitOnDot token.data
  if parts.length ≠ 3 then true
  else
    match decode (parts.getD 1 "") with
    | none => true
    | some payload =>
      match payload.exp with
      | none => true
      | some e => if e = 0 then true else decide (e * 1000 ≤ now + 60 * 1000)

/-- `getMicrophoneState` (lines 1339-1348): with no room or no local
participant the default `{enabled: false, muted: false}` is returned
without consulting the transport; otherwise the flags are read off the
microphone track publication (a missing publication reads as disabled and
unmuted).  The method is total: it never throws. -/
def getMicrophoneState (s : ClientState) : MicrophoneState :=
  match s.room.bind Room.localParticipant with
  | none => { enabled := false, muted := false }
  | some lp =>
    match lp.micPublication with
    | none => { enabled := false, muted := false }
    | some pub => { enabled := pub.isSubscribed, muted := pub.isMuted }

/-- `getAgentState` (lines 1329-1334): a snapshot of the current agent
state; a `null` (or empty) participant id collapses to `undefined`. -/
def getAgentState (s : ClientState) : AgentStateInfo where
  state := s.currentAgentState
  agentParticipantId := jsOrUndefined s.agentParticipantId

/-- The immediate (synchronous, at-subscription-time) invocations performed
by `onAgentStateChange` (lines 1413-1417): the new handler is always called
once, with the current agent-state snapshot. -/
def onAgentStateChange (s : ClientState) : List AgentStateInfo :=
  [{ state := s.currentAgentState, agentParticipantId := jsOrUndefined s.agentParticipantId }]

/-- The immediate invocations performed by `onMicrophoneStateChange`
(lines 1432-1442): the new handler is called with the microphone snapshot
ONLY under the `if (this.room?.localParticipant)` guard; with no room (or
no local participant) it is not invoked at subscription time. -/
def onMicrophoneStateChange (s : ClientState) : List MicrophoneState :=
  match s.room.bind Room.localParticipant with
  | none => []
  | some lp =>
    match lp.micPublication with
    | none => [{ enabled := false, muted := false }]
    | some pub => [{ enabled := pub.isSubscribed, muted := pub.isMuted }]

/-- Runs a sequence of `updateAgentState` calls, concatenating the events
each call fans out to the agent-state subscriber set. -/
def runAgentUpdates : ClientState → List AgentState → ClientState × List AgentStateInfo
  | s, [] => (s, [])
  | s, st :: rest =>
    let step := updateAgentState s st
    let tail := runAgentUpdates step.1 rest
    (tail.1, step.2 ++ tail.2)

/-- The authenticated POST request that `getConnectionDetails`
(lines 1470-1499) sends to the negotiation endpoint: endpoint URL, bearer
credential, and the JSON body `{agent_id?, metadata?, environment?}`. -/
structure NegotiationRequest where
  endpoint : String
  bearer : String
  agent_id : Option String
  metadata : Option String
  environment : Option String
deriving DecidableEq

/-- The JSON envelope of a successful negotiation response
(lines 1520-1525). -/
structure RawConnectionDetails where
  server_url : String
  participant_token : String
  call_id : String
deriving DecidableEq

/-- The request construction of `getConnectionDetails` (lines 1471-1498):
`options.apiUrl || this.apiUrl` picks the URL, `options.testMode` selects
the test endpoint path, `agent_id` is set only for a truthy `agentId`,
`metadata` prefers the serialized `agentConfig` over the raw `metadata`
string, `environment` is passed through (objects in their serialized
form), and `options.apiKey || this.apiKey` is the bearer credential. -/
def buildNegotiationRequest (apiKey apiUrl : String) (o : ConnectionOptions) :
    NegotiationRequest where
  endpoint :=
    jsOrStr o.apiUrl apiUrl ++
      (if o.testMode = some true then "/connection/test-connection-details"
       else "/connection/connection-details")
  bearer := jsOrStr o.apiKey apiKey
  agent_id := if jsTruthyStr o.agentId then o.agentId else none
  metadata :=
    if o.agentConfig.isSome then o.agentConfig
    else if jsTruthyStr o.metadata then o.metadata else none
  environment := if jsTruthyStr o.environment then o.environment else none

/-- `getConnectionDetails` (lines 1470-1526): builds the negotiation
request, hands it to the backend (`respond` models `fetch` plus the
non-2xx error classification, producing the thrown error message), and on
success maps the response envelope `{server_url, participant_token,
call_id}` into a `ConnectionDetails`. -/
def getConnectionDetails (apiKey apiUrl : String) (o : ConnectionOptions)
    (respond : NegotiationRequest → Except String RawConnectionDetails) :
    NegotiationRequest × Except String ConnectionDetails :=
  let req := buildNegotiationRequest apiKey apiUrl o
  (req,
   match respond req with
   | .ok raw =>
     .ok { serverUrl := raw.server_url, participantToken := raw.participant_token,
           callId := raw.call_id }
   | .error e => .error e)

/-- Outcome of resolving connection details: the new cache field, the list
of negotiation requests issued (empty on a cache hit), and the returned or
thrown result. -/
structure ResolveOutcome where
  cached : Option ConnectionDetails
  requests : List NegotiationRequest
  result : Except String ConnectionDetails

/-- The refresh path of `getOrRefreshConnectionDetails` (lines 1465-1467):
fetch fresh details and cache them; a thrown fetch error leaves the cache
untouched. -/
def refreshConnectionDetails (apiKey apiUrl : String)
    (cached : Option ConnectionDetails) (o : ConnectionOptions)
    (respond : NegotiationRequest → Except String RawConnectionDetails) :
    ResolveOutcome :=
  let fetched := getConnectionDetails apiKey apiUrl o respond
  match fetched.2 with
  | .ok nd => { cached := some nd, requests := [fetched.1], result := .ok nd }
  | .error e => { cached := cached, requests := [fetched.1], result := .error e }

/-- `getOrRefreshConnectionDetails` (lines 1460-1468): return the cached
`ConnectionDetails` when one exists and its participant token has not
expired; in every other case perform the negotiation and cache its result.
The options object carries no server URL or participant token and offers no
bypass of the negotiation. -/
def getOrRefreshConnectionDetails (apiKey apiUrl : String)
    (cached : Option ConnectionDetails) (o : ConnectionOptions)
    (respond : NegotiationRequest → Except String RawConnectionDetails)
    (decode : String → Option JwtPayload) (now : Int) : ResolveOutcome :=
  match cached with
  | some d =>
    if isTokenExpired decode now d.participantToken then
      refreshConnectionDetails apiKey apiUrl cached o respond
    else { cached := some d, requests := [], result := .ok d }
  | none => refreshConnectionDetails apiKey apiUrl none o respond

/-- Outcome of the retry loop of `connect` (lines 1240-1258): whether an
attempt succeeded, the last captured error, the backoff waits (in ms)
performed between failed attempts, and how many attempts were made. -/
structure RetryOutcome where
  connected : Bool
  lastError : Option String
  waits : List Nat
  attemptsMade : Nat
deriving DecidableEq

/-- One iteration cursor of the `for (let attempt = 1; attempt <= 3; ...)`
loop: `attemptResult attempt` is the outcome of the
`Promise.all([setupAudio, room.connect])` join of that attempt (`none` =
both resolved, `some e` = the join rejected with `e`); on failure the loop
sleeps `1000 * attempt` ms while `attempt < 3` and then moves on.  The
first argument of the recursion is the number of loop iterations still
permitted by the `attempt <= 3` bound. -/
def retryGo (attemptResult : Nat → Option String) :
    Nat → Nat → Option String → List Nat → RetryOutcome
  | 0, attempt, lastErr, waits =>
    { connected := false, lastError := lastErr, waits := waits,
      attemptsMade := attempt - 1 }
  | remaining + 1, attempt, lastErr, waits =>
    match attemptResult attempt with
    | none =>
      { connected := true, lastError := lastErr, waits := waits,
        attemptsMade := attempt }
    | some e =>
      retryGo attemptResult remaining (attempt + 1) (some e)
        (if attempt < 3 then waits ++ [1000 * attempt] else waits)

/-- The full retry loop of `connect`: three permitted attempts starting at
attempt number 1, with no error captured and no waits performed yet. -/
def connectRetry (attemptResult : Nat → Option String) : RetryOutcome :=
  retryGo attemptResult 3 1 none []

/-- Everything a call to `connect` produces: the successor instance state,
the negotiation requests issued, the status events and error events fanned
out to their subscriber sets, the backoff waits performed, the number of
connection attempts made, and the resolution (`.ok` = the promise
resolves, `.error` = it rejects with that message). -/
structure ConnectResult where
  state : ClientState
  requests : List NegotiationRequest
  statusEvents : List ConnectionStatus
  errorEvents : List String
  waits : List Nat
  attemptsMade : Nat
  result : Except String Unit

/-- `connect` (lines 1220-1272).  The guard rejects while connecting or
connected, before any state is touched.  Otherwise the status transitions
to connecting, connection details are resolved (possibly issuing a
negotiation request and updating the cache), a fresh `Room` is installed,
and the retry loop runs; on success the status becomes connected with the
call id, on overall failure (resolution error, or loop exhausted) the
status takes the error message, the error is fanned out to the error
subscribers, and the same error is re-thrown.  `prepareConnection` is a
fire-and-forget pre-warming hint with no modelled effect. -/
def connect (s : ClientState) (o : ConnectionOptions)
    (respond : NegotiationRequest → Except String RawConnectionDetails)
    (decode : String → Option JwtPayload) (now : Int)
    (attemptResult : Nat → Option String) : ConnectResult :=
  if s.connectionStatus.connecting || s.connectionStatus.connected then
    { state := s, requests := [], statusEvents := [], errorEvents := [],
      waits := [], attemptsMade := 0,
      result := .error "Already connected or connecting" }
  else
    let st1 := mergeStatus s.connectionStatus
      { connecting := some true, connected := some false }
    let R := getOrRefreshConnectionDetails s.apiKey s.apiUrl
      s.cachedConnectionDetails o respond decode now
    match R.result with
    | .error err =>
      let msg := err
      let st2 := mergeStatus st1
        { connected := some false, connecting := some false, error := some msg }
      let sFail : ClientState :=
        { s with connectionStatus := st2, cachedConnectionDetails := R.cached }
      { state := sFail,
        requests := R.requests, statusEvents := [st1, st2],
        errorEvents := [msg], waits := [], attemptsMade := 0,
        result := .error msg }
    | .ok details =>
      let r := connectRetry attemptResult
      if r.connected then
        let st2 := mergeStatus st1
          { connected := some true, connecting := some false,
            callId := some details.callId }
        let sOk : ClientState :=
          { s with connectionStatus := st2, cachedConnectionDetails := R.cached,
                   room := some Room.new }
        { state := sOk,
          requests := R.requests, statusEvents := [st1, st2],
          errorEvents := [], waits := r.waits,
          attemptsMade := r.attemptsMade, result := .ok () }
      else
        let msg := r.lastError.getD "Failed to connect after 3 attempts"
        let st2 := mergeStatus st1
          { connected := some false, connecting := some false, error := some msg }
        let sFail : ClientState :=
          { s with connectionStatus := st2, cachedConnectionDetails := R.cached,
                   room := some Room.new }
        { state := sFail,
          requests := R.requests, statusEvents := [st1, st2],
          errorEvents := [msg], waits := r.waits,
          attemptsMade := r.attemptsMade, result := .error msg }

/-- The session-termination request `disconnect` may issue:
`POST {apiUrl}/calls/{callId}/end` with a bearer credential. -/
structure EndCallRequest where
  callId : String
  bearer : String
deriving DecidableEq

/-- Everything a call to `disconnect` produces: the successor state, the
termination requests issued, and the status / agent-state events fanned
out. -/
structure DisconnectResult where
  state : ClientState
  endRequests : List EndCallRequest
  statusEvents : List ConnectionStatus
  agentStateEvents : List AgentStateInfo

/-- `disconnect` (lines 1277-1310): reads the call id off the cached
details, drops the room (transport disconnect errors are swallowed), and
whenever that call id is present (truthy) issues one best-effort
termination POST authorized with the construction-time API key
(`Bearer ${this.apiKey}`); then clears the cached details and the agent
participant id, transitions the agent state to `disconnected`, and merges
`{connected: false, connecting: false}` into the status.  It never
throws. -/
def disconnect (s : ClientState) : DisconnectResult :=
  let callId := s.cachedConnectionDetails.map ConnectionDetails.callId
  let s1 : ClientState := { s with room := none }
  let endRequests : List EndCallRequest :=
    match callId with
    | some cid => if cid = "" then [] else [{ callId := cid, bearer := s.apiKey }]
    | none => []
  let s2 : ClientState :=
    { s1 with cachedConnectionDetails := none, agentParticipantId := none }
  let step := updateAgentState s2 AgentState.disconnected
  let step2 := updateStatus step.1 { connected := some false, connecting := some false }
  { state := step2.1, endRequests := endRequests,
    statusEvents := [step2.2], agentStateEvents := step.2 }

/-- Modelled from the spec: step 1 of the Connection Details Provider
algorithm (spec section 4.2), which this repository's source does not
contain — `ConnectionOptions` in `src/types.ts` has no server-URL or
participant-token field and `getOrRefreshConnectionDetails` has no
override branch.  Per the spec's words: if the caller supplies both a
server URL and a participant credential directly, accept them verbatim
(bypassing negotiation entirely, hence no request) and cache them;
otherwise fall back to the cache-or-negotiate behavior. -/
def specResolveConnectionDetails (directServerUrl directParticipantToken : Option String)
    (apiKey apiUrl : String) (cached : Option ConnectionDetails)
    (o : ConnectionOptions)
    (respond : NegotiationRequest → Except String RawConnectionDetails)
    (decode : String → Option JwtPayload) (now : Int) : ResolveOutcome :=
  match directServerUrl, directParticipantToken with
  | some u, some t =>
    let d : ConnectionDetails := { serverUrl := u, participantToken := t, callId := "" }
    { cached := some d, requests := [], result := .ok d }
  | _, _ =>
    getOrRefreshConnectionDetails apiKey apiUrl cached o respond decode now

end VoiceAI

open VoiceAI

/-- Strengthened invariant for the agent-state event stream: the emitted
states form a chain of pairwise-distinct neighbours, and the first emission
of a run differs from the state current at the start of the run. -/
lemma runAgentUpdates_chain (updates : List AgentState) :
    ∀ s : ClientState,
      List.Chain' (fun a b => a ≠ b)
        (((runAgentUpdates s updates).2).map AgentStateInfo.state)
      ∧ ∀ a ∈ (((runAgentUpdates s updates).2).map AgentStateInfo.state).head?,
          a ≠ s.currentAgentState := by
  induction updates with
  | nil => intro s; simp [runAgentUpdates]
  | cons st rest ih =>
    intro s
    by_cases h : s.currentAgentState = st
    · have hstep : updateAgentState s st = (s, []) := by
        simp [updateAgentState, h]
      simpa [runAgentUpdates, hstep] using ih s
    · have hstep : updateAgentState s st =
          ({ s with currentAgentState := st },
           [{ state := st, agentParticipantId := jsOrUndefined s.agentParticipantId }]) := by
        simp [updateAgentState, h]
      obtain ⟨hchain, hhead⟩ := ih { s with currentAgentState := st }
      refine ⟨?_, ?_⟩
      · simp only [runAgentUpdates, hstep, List.singleton_append, List.map_cons]
        rw [List.chain'_cons']
        refine ⟨?_, hchain⟩
        intro y hy
        exact fun he => hhead y hy he.symm
      · intro a ha
        simp only [runAgentUpdates, hstep, List.singleton_append, List.map_cons,
          List.head?_cons, Option.mem_def, Option.some.injEq] at ha
        subst ha
        exact fun he => h he.symm

/-- C8: a redundant `updateAgentState` (the requested state equals the
current one) leaves the client untouched and fires no event; consequently,
over any sequence of internal agent-state updates the events fanned out to
agent-state subscribers never carry the same state value twice in a row. -/
theorem C8_redundant_agent_state_suppressed (s : ClientState)
    (updates : List AgentState) :
    updateAgentState s s.currentAgentState = (s, [])
    ∧ List.Chain' (fun a b => a ≠ b)
        (((runAgentUpdates s updates).2).map AgentStateInfo.state) :=
  ⟨by simp [updateAgentState], (runAgentUpdates_chain updates s).1⟩

/-- C4: `isTokenExpired` returns true when the token does not split into
exactly 3 dot-separated segments, when the middle segment fails to decode
or parse, when the parsed payload has no expiry field, or when the expiry
(epoch seconds) lies at or before 60 seconds after now; and it returns
false whenever the expiry is strictly more than 60 seconds in the future
(for the non-negative clock values `Date.now()` produces). -/
theorem C4_token_expiry_classification (decode : String → Option JwtPayload)
    (now : Int) (token : String) :
    ((splitOnDot token.data).length ≠ 3 → isTokenExpired decode now token = true)
    ∧ (decode ((splitOnDot token.data).getD 1 "") = none →
        isTokenExpired decode now token = true)
    ∧ (∀ p, decode ((splitOnDot token.data).getD 1 "") = some p → p.exp = none →
        isTokenExpired decode now token = true)
    ∧ (∀ p e, decode ((splitOnDot token.data).getD 1 "") = some p →
        p.exp = some e → e * 1000 ≤ now + 60 * 1000 →
        isTokenExpired decode now token = true)
    ∧ (∀ p e, 0 ≤ now → (splitOnDot token.data).length = 3 →
        decode ((splitOnDot token.data).getD 1 "") = some p → p.exp = some e →
        now + 60 * 1000 < e * 1000 →
        isTokenExpired decode now token = false) := by
  refine ⟨?_, ?_, ?_, ?_, ?_⟩
  · intro h
    simp [isTokenExpired, h]
  · intro h
    by_cases hl : (splitOnDot token.data).length = 3
    · simp only [isTokenExpired]
      rw [if_neg (not_ne_iff.mpr hl), h]
    · simp only [isTokenExpired]
      rw [if_pos hl]
  · intro p h hexp
    by_cases hl : (splitOnDot token.data).length = 3
    · simp only [isTokenExpired]
      rw [if_neg (not_ne_iff.mpr hl), h]
      simp only [hexp]
    · simp only [isTokenExpired]
      rw [if_pos hl]
  · intro p e h hexp hle
    by_cases hl : (splitOnDot token.data).length = 3
    · simp only [isTokenExpired]
      rw [if_neg (not_ne_iff.mpr hl), h]
      simp only [hexp]
      by_cases he : e = 0
      · rw [if_pos he]
      · rw [if_neg he]
        exact decide_eq_true hle
    · simp only [isTokenExpired]
      rw [if_pos hl]
  · intro p e hnow hl h hexp hfut
    have hne : ¬ e = 0 := by
      intro h0
      rw [h0] at hfut
      omega
    simp only [isTokenExpired]
    rw [if_neg (not_ne_iff.mpr hl), h]
    simp only [hexp]
    rw [if_neg hne]
    exact decide_eq_false (by omega)

/-- Witness for C4 at concrete inputs: the token `"h.p.s"` whose payload
decodes with expiry 1000 s is not expired at time 0 ms, and a two-segment
token is expired. -/
theorem C4_token_expiry_witness :
    isTokenExpired (fun seg => if seg = "p" then some { exp := some 1000 } else none)
      0 "h.p.s" = false
    ∧ isTokenExpired (fun seg => if seg = "p" then some { exp := some 1000 } else none)
      0 "h.p" = true :=
  ⟨(C4_token_expiry_classification
      (fun seg => if seg = "p" then some { exp := some 1000 } else none) 0
      "h.p.s").2.2.2.2 { exp := some 1000 } 1000 (by decide) (by decide)
      (by decide) rfl (by decide),
   (C4_token_expiry_classification
      (fun seg => if seg = "p" then some { exp := some 1000 } else none) 0
      "h.p").1 (by decide)⟩

/-- C10: with no transport room — in the freshly constructed client, in any
state whose room is null, and right after `disconnect` (which nulls the
room) — `getMicrophoneState` returns exactly `{enabled: false, muted:
false}`; being a total function of the state, it cannot throw. -/
theorem C10_mic_state_without_room (s : ClientState) (k u : String) :
    getMicrophoneState (initialState k u) = { enabled := false, muted := false }
    ∧ (s.room = none →
        getMicrophoneState s = { enabled := false, muted := false })
    ∧ (disconnect s).state.room = none
    ∧ getMicrophoneState (disconnect s).state
        = { enabled := false, muted := false } := by
  have hroom : (disconnect s).state.room = none := by
    simp only [disconnect, updateAgentState, updateStatus]
    split <;> rfl
  exact ⟨rfl, fun h => by simp [getMicrophoneState, h], hroom,
    by simp [getMicrophoneState, hroom]⟩

/-- Witness for C10 at a concrete input: a client that connected (room
present) and then disconnected reports the default microphone state. -/
theorem C10_mic_state_without_room_witness :
    getMicrophoneState
      { initialState "vk_test" "https://dev.voice.ai/api/v1" with room := none }
      = { enabled := false, muted := false } :=
  (C10_mic_state_without_room
    { initialState "vk_test" "https://dev.voice.ai/api/v1" with room := none }
    "vk_test" "https://dev.voice.ai/api/v1").2.1 rfl

/-- C9 is falsified at the freshly constructed (disconnected) client: a
current microphone snapshot exists (`{enabled: false, muted: false}`), yet
`onMicrophoneStateChange` performs no immediate handler invocation because
its replay is guarded by `if (this.room?.localParticipant)`; the claim
requires an immediate invocation in every client state. -/
theorem C9_counterexample_no_mic_replay_when_disconnected :
    onMicrophoneStateChange (initialState "vk_test" "https://dev.voice.ai/api/v1") = []
    ∧ getMicrophoneState (initialState "vk_test" "https://dev.voice.ai/api/v1")
        = { enabled := false, muted := false } :=
  ⟨rfl, rfl⟩

/-- C9 amended: `onAgentStateChange` always invokes the new handler
immediately with the current agent-state snapshot; `onMicrophoneStateChange`
invokes the new handler immediately with the current microphone snapshot
only when a room with a local participant exists, and performs no immediate
invocation otherwise. -/
theorem C9_amended_replay_on_subscribe (s : ClientState) :
    onAgentStateChange s = [getAgentState s]
    ∧ (s.room.bind Room.localParticipant = none →
        onMicrophoneStateChange s = [])
    ∧ (∀ lp, s.room.bind Room.localParticipant = some lp →
        onMicrophoneStateChange s = [getMicrophoneState s]) := by
  refine ⟨rfl, ?_, ?_⟩
  · intro h
    simp [onMicrophoneStateChange, h]
  · intro lp h
    cases hmp : lp.micPublication <;>
      simp [onMicrophoneStateChange, getMicrophoneState, h, hmp]

/-- Witness for the amended C9 at concrete inputs: no immediate microphone
replay on the fresh client; one immediate replay once a room with a local
participant exists. -/
theorem C9_amended_replay_on_subscribe_witness :
    onMicrophoneStateChange (initialState "k" "https://u") = []
    ∧ onMicrophoneStateChange { initialState "k" "https://u" with room := some Room.new }
        = [getMicrophoneState { initialState "k" "https://u" with room := some Room.new }] :=
  ⟨(C9_amended_replay_on_subscribe (initialState "k" "https://u")).2.1 rfl,
   (C9_amended_replay_on_subscribe
      { initialState "k" "https://u" with room := some Room.new }).2.2
      { micPublication := none } rfl⟩

/-- C3: a `connect` issued while the status has `connecting` or
`connected` set rejects with the "Already connected or connecting" error
and performs nothing: no state change (status, cached details, agent state
are those of the input state), no request, no event, no attempt. -/
theorem C3_connect_guard_rejects_unchanged (s : ClientState)
    (o : ConnectionOptions)
    (respond : NegotiationRequest → Except String RawConnectionDetails)
    (decode : String → Option JwtPayload) (now : Int)
    (attemptResult : Nat → Option String)
    (h : s.connectionStatus.connecting = true ∨ s.connectionStatus.connected = true) :
    connect s o respond decode now attemptResult =
      { state := s, requests := [], statusEvents := [], errorEvents := [],
        waits := [], attemptsMade := 0,
        result := .error "Already connected or connecting" } := by
  have hb : (s.connectionStatus.connecting || s.connectionStatus.connected) = true := by
    rcases h with h | h <;> simp [h]
  simp [connect, hb]

/-- Witness for C3 at a concrete input: a client whose status says
connecting rejects and is left untouched. -/
theorem C3_connect_guard_witness :
    connect
      { initialState "vk" "https://u" with
        connectionStatus :=
          { connected := false, connecting := true, error := none, callId := none } }
      {} (fun _ => .error "net") (fun _ => none) 0 (fun _ => none) =
      { state :=
          { initialState "vk" "https://u" with
            connectionStatus :=
              { connected := false, connecting := true, error := none, callId := none } },
        requests := [], statusEvents := [], errorEvents := [],
        waits := [], attemptsMade := 0,
        result := .error "Already connected or connecting" } :=
  C3_connect_guard_rejects_unchanged _ {} (fun _ => .error "net") (fun _ => none) 0
    (fun _ => none) (Or.inl rfl)

/-- C1 is falsified at a concrete client: its cached `ConnectionDetails`
(which, per `src/types.ts`, can carry no end-credential at all, only
`serverUrl`, `participantToken`, `callId`) holds call id `call-1`, and
`disconnect` issues the termination POST anyway — gated on the call id and
authorized with the construction-time API key `vk_key` as the bearer, not
with any end-credential.  Under the claim, no end-credential being present
would mean no termination request at all. -/
theorem C1_counterexample_end_call_without_end_credential :
    (disconnect
      { initialState "vk_key" "https://api.example.com" with
        cachedConnectionDetails :=
          some { serverUrl := "wss://srv", participantToken := "ptok",
                 callId := "call-1" } }).endRequests
      = [{ callId := "call-1", bearer := "vk_key" }] := by
  decide

/-- C1 amended: `disconnect` issues the termination POST exactly when the
cached `ConnectionDetails` is present with a truthy (non-empty) `callId`,
and it authorizes the request with the construction-time API key as bearer;
with no cached details, or an empty call id, no termination request is
sent. -/
theorem C1_amended_end_call_gated_on_call_id (s : ClientState) :
    (s.cachedConnectionDetails = none → (disconnect s).endRequests = [])
    ∧ (∀ d, s.cachedConnectionDetails = some d → d.callId ≠ "" →
        (disconnect s).endRequests = [{ callId := d.callId, bearer := s.apiKey }])
    ∧ (∀ d, s.cachedConnectionDetails = some d → d.callId = "" →
        (disconnect s).endRequests = []) := by
  refine ⟨?_, ?_, ?_⟩
  · intro h
    simp [disconnect, h]
  · intro d h hne
    simp [disconnect, h, hne]
  · intro d h he
    simp [disconnect, h, he]

/-- Witness for the amended C1 at concrete inputs: with cached details the
POST goes out bearing the API key; without them nothing is sent. -/
theorem C1_amended_end_call_witness :
    (disconnect
      { initialState "vk_2" "https://u" with
        cachedConnectionDetails :=
          some { serverUrl := "wss://w", participantToken := "t",
                 callId := "c9" } }).endRequests
      = [{ callId := "c9", bearer := "vk_2" }]
    ∧ (disconnect (initialState "vk_2" "https://u")).endRequests = [] :=
  ⟨(C1_amended_end_call_gated_on_call_id _).2.1
      { serverUrl := "wss://w", participantToken := "t", callId := "c9" }
      rfl (by decide),
   (C1_amended_end_call_gated_on_call_id (initialState "vk_2" "https://u")).1 rfl⟩

/-- C7 is falsified: the source's `ConnectionOptions` offers no server-URL
or participant-token field, and at a concrete client with an empty cache
the source resolver performs the backend negotiation (one request is
issued, built from the options' api fields) and returns the backend's
details — whereas the behavior the claim describes (modelled verbatim from
the spec's words in `specResolveConnectionDetails`) would accept the
caller-supplied pair with no request at all.  Negotiation is never
bypassed by caller-supplied connection values. -/
theorem C7_counterexample_no_direct_override :
    (getOrRefreshConnectionDetails "vk_ctor" "https://base" none
        { apiUrl := some "https://override.example", apiKey := some "vk_opt",
          agentId := some "agent-1", metadata := some "meta",
          environment := some "env", autoPublishMic := some true,
          preConnectBuffer := some true, testMode := some false }
        (fun _ => .ok { server_url := "wss://fetched",
                        participant_token := "tok-f", call_id := "call-f" })
        (fun _ => none) 0).requests.length = 1
    ∧ (getOrRefreshConnectionDetails "vk_ctor" "https://base" none
        { apiUrl := some "https://override.example", apiKey := some "vk_opt",
          agentId := some "agent-1", metadata := some "meta",
          environment := some "env", autoPublishMic := some true,
          preConnectBuffer := some true, testMode := some false }
        (fun _ => .ok { server_url := "wss://fetched",
                        participant_token := "tok-f", call_id := "call-f" })
        (fun _ => none) 0).result
      = .ok { serverUrl := "wss://fetched", participantToken := "tok-f",
              callId := "call-f" }
    ∧ (specResolveConnectionDetails (some "wss://direct") (some "tok-direct")
        "vk_ctor" "https://base" none {}
        (fun _ => .ok { server_url := "wss://fetched",
                        participant_token := "tok-f", call_id := "call-f" })
        (fun _ => none) 0).requests = []
    ∧ (specResolveConnectionDetails (some "wss://direct") (some "tok-direct")
        "vk_ctor" "https://base" none {}
        (fun _ => .ok { server_url := "wss://fetched",
                        participant_token := "tok-f", call_id := "call-f" })
        (fun _ => none) 0).result
      = .ok { serverUrl := "wss://direct", participantToken := "tok-direct",
              callId := "" } :=
  ⟨rfl, rfl, rfl, rfl⟩

/-- C7 amended: connection-details resolution never takes connection values
from the caller verbatim — `ConnectionOptions` cannot even carry them.  The
cached details are returned unchanged (no request) while their participant
token is unexpired; in every other case exactly one negotiation request,
built from the options and the construction-time credentials, is issued;
its successful response is mapped and becomes the new cache, and a failure
leaves the cache as it was. -/
theorem C7_amended_cache_or_negotiate (apiKey apiUrl : String)
    (cached : Option ConnectionDetails) (o : ConnectionOptions)
    (respond : NegotiationRequest → Except String RawConnectionDetails)
    (decode : String → Option JwtPayload) (now : Int) :
    (∀ d, cached = some d →
      isTokenExpired decode now d.participantToken = false →
      getOrRefreshConnectionDetails apiKey apiUrl cached o respond decode now
        = { cached := some d, requests := [], result := .ok d })
    ∧ ((cached = none ∨ ∃ d, cached = some d ∧
          isTokenExpired decode now d.participantToken = true) →
      (getOrRefreshConnectionDetails apiKey apiUrl cached o respond decode now).requests
        = [buildNegotiationRequest apiKey apiUrl o])
    ∧ (∀ raw, respond (buildNegotiationRequest apiKey apiUrl o) = .ok raw →
      (cached = none ∨ ∃ d, cached = some d ∧
          isTokenExpired decode now d.participantToken = true) →
      getOrRefreshConnectionDetails apiKey apiUrl cached o respond decode now
        = { cached := some { serverUrl := raw.server_url,
                             participantToken := raw.participant_token,
                             callId := raw.call_id },
            requests := [buildNegotiationRequest apiKey apiUrl o],
            result := .ok { serverUrl := raw.server_url,
                            participantToken := raw.participant_token,
                            callId := raw.call_id } })
    ∧ (∀ e, respond (buildNegotiationRequest apiKey apiUrl o) = .error e →
      (cached = none ∨ ∃ d, cached = some d ∧
          isTokenExpired decode now d.participantToken = true) →
      getOrRefreshConnectionDetails apiKey apiUrl cached o respond decode now
        = { cached := cached, requests := [buildNegotiationRequest apiKey apiUrl o],
            result := .error e }) := by
  refine ⟨?_, ?_, ?_, ?_⟩
  · intro d h hval
    simp [getOrRefreshConnectionDetails, h, hval]
  · rintro (h | ⟨d, h, hexp⟩)
    · subst h
      cases hresp : respond (buildNegotiationRequest apiKey apiUrl o) <;>
        simp [getOrRefreshConnectionDetails, refreshConnectionDetails,
          getConnectionDetails, hresp]
    · subst h
      cases hresp : respond (buildNegotiationRequest apiKey apiUrl o) <;>
        simp [getOrRefreshConnectionDetails, refreshConnectionDetails,
          getConnectionDetails, hresp, hexp]
  · intro raw hresp h
    rcases h with h | ⟨d, h, hexp⟩
    · subst h
      simp [getOrRefreshConnectionDetails, refreshConnectionDetails,
        getConnectionDetails, hresp]
    · subst h
      simp [getOrRefreshConnectionDetails, refreshConnectionDetails,
        getConnectionDetails, hresp, hexp]
  · intro e hresp h
    rcases h with h | ⟨d, h, hexp⟩
    · subst h
      simp [getOrRefreshConnectionDetails, refreshConnectionDetails,
        getConnectionDetails, hresp]
    · subst h
      simp [getOrRefreshConnectionDetails, refreshConnectionDetails,
        getConnectionDetails, hresp, hexp]

/-- Witness for the amended C7 at concrete inputs: a valid cached token is
reused with no request; an empty cache triggers exactly one negotiation
request whose result is cached. -/
theorem C7_amended_cache_or_negotiate_witness :
    getOrRefreshConnectionDetails "vk" "https://b"
        (some { serverUrl := "wss://c", participantToken := "x.p.y", callId := "c1" })
        {} (fun _ => .error "unused")
        (fun seg => if seg = "p" then some { exp := some 1000000000000 } else none) 0
      = { cached := some { serverUrl := "wss://c", participantToken := "x.p.y",
                           callId := "c1" },
          requests := [],
          result := .ok { serverUrl := "wss://c", participantToken := "x.p.y",
                          callId := "c1" } }
    ∧ getOrRefreshConnectionDetails "vk" "https://b" none {}
        (fun _ => .ok { server_url := "wss://n", participant_token := "t",
                        call_id := "c2" })
        (fun _ => none) 0
      = { cached := some { serverUrl := "wss://n", participantToken := "t",
                           callId := "c2" },
          requests := [buildNegotiationRequest "vk" "https://b" {}],
          result := .ok { serverUrl := "wss://n", participantToken := "t",
                          callId := "c2" } } :=
  ⟨(C7_amended_cache_or_negotiate "vk" "https://b"
      (some { serverUrl := "wss://c", participantToken := "x.p.y", callId := "c1" })
      {} (fun _ => .error "unused")
      (fun seg => if seg = "p" then some { exp := some 1000000000000 } else none) 0).1
      { serverUrl := "wss://c", participantToken := "x.p.y", callId := "c1" }
      rfl (by decide),
   (C7_amended_cache_or_negotiate "vk" "https://b" none {}
      (fun _ => .ok { server_url := "wss://n", participant_token := "t",
                      call_id := "c2" })
      (fun _ => none) 0).2.2.1
      { server_url := "wss://n", participant_token := "t", call_id := "c2" }
      rfl (Or.inl rfl)⟩

/-- Retry loop, case: the first attempt's join succeeds. -/
lemma connectRetry_first_success (f : Nat → Option String) (h : f 1 = none) :
    connectRetry f =
      { connected := true, lastError := none, waits := [], attemptsMade := 1 } := by
  simp [connectRetry, retryGo, h]

/-- Retry loop, case: attempt 1 fails, attempt 2 succeeds, after one
1000 ms backoff. -/
lemma connectRetry_second_success (f : Nat → Option String) (e1 : String)
    (h1 : f 1 = some e1) (h2 : f 2 = none) :
    connectRetry f =
      { connected := true, lastError := some e1, waits := [1000],
        attemptsMade := 2 } := by
  simp [connectRetry, retryGo, h1, h2]

/-- Retry loop, case: attempts 1 and 2 fail, attempt 3 succeeds, after
backoffs of 1000 ms and 2000 ms. -/
lemma connectRetry_third_success (f : Nat → Option String) (e1 e2 : String)
    (h1 : f 1 = some e1) (h2 : f 2 = some e2) (h3 : f 3 = none) :
    connectRetry f =
      { connected := true, lastError := some e2, waits := [1000, 2000],
        attemptsMade := 3 } := by
  simp [connectRetry, retryGo, h1, h2, h3]

/-- Retry loop, case: all three attempts fail; the loop stops after the
third attempt (no backoff follows the last attempt) holding the last
error. -/
lemma connectRetry_all_fail (f : Nat → Option String) (e1 e2 e3 : String)
    (h1 : f 1 = some e1) (h2 : f 2 = some e2) (h3 : f 3 = some e3) :
    connectRetry f =
      { connected := false, lastError := some e3, waits := [1000, 2000],
        attemptsMade := 3 } := by
  simp [connectRetry, retryGo, h1, h2, h3]

/-- C2: under an idle client whose connection details resolve, `connect`
makes at most 3 attempts; a successful attempt skips the remaining ones
and `connect` resolves, having backed off `attempt × 1000` ms between the
failed attempts that preceded it; when all 3 attempts fail, `connect`
rejects with the last captured error (the generic "Failed to connect after
3 attempts" message standing in only when no error was captured). -/
theorem C2_retry_policy (s : ClientState) (o : ConnectionOptions)
    (respond : NegotiationRequest → Except String RawConnectionDetails)
    (decode : String → Option JwtPayload) (now : Int) (f : Nat → Option String)
    (hcg : s.connectionStatus.connecting = false)
    (hcd : s.connectionStatus.connected = false)
    (d : ConnectionDetails)
    (hres : (getOrRefreshConnectionDetails s.apiKey s.apiUrl
        s.cachedConnectionDetails o respond decode now).result = .ok d) :
    (connect s o respond decode now f).attemptsMade ≤ 3
    ∧ (f 1 = none →
        (connect s o respond decode now f).result = .ok ()
        ∧ (connect s o respond decode now f).attemptsMade = 1
        ∧ (connect s o respond decode now f).waits = [])
    ∧ (∀ e1, f 1 = some e1 → f 2 = none →
        (connect s o respond decode now f).result = .ok ()
        ∧ (connect s o respond decode now f).attemptsMade = 2
        ∧ (connect s o respond decode now f).waits = [1000])
    ∧ (∀ e1 e2, f 1 = some e1 → f 2 = some e2 → f 3 = none →
        (connect s o respond decode now f).result = .ok ()
        ∧ (connect s o respond decode now f).attemptsMade = 3
        ∧ (connect s o respond decode now f).waits = [1000, 2000])
    ∧ (∀ e1 e2 e3, f 1 = some e1 → f 2 = some e2 → f 3 = some e3 →
        (connect s o respond decode now f).result = .error e3
        ∧ (connect s o respond decode now f).attemptsMade = 3
        ∧ (connect s o respond decode now f).waits = [1000, 2000]) := by
  refine ⟨?_, ?_, ?_, ?_, ?_⟩
  · cases h1 : f 1 with
    | none => simp [connect, hcg, hcd, hres, connectRetry_first_success f h1]
    | some e1 =>
      cases h2 : f 2 with
      | none => simp [connect, hcg, hcd, hres, connectRetry_second_success f e1 h1 h2]
      | some e2 =>
        cases h3 : f 3 with
        | none =>
          simp [connect, hcg, hcd, hres, connectRetry_third_success f e1 e2 h1 h2 h3]
        | some e3 =>
          simp [connect, hcg, hcd, hres, connectRetry_all_fail f e1 e2 e3 h1 h2 h3]
  · intro h1
    simp [connect, hcg, hcd, hres, connectRetry_first_success f h1]
  · intro e1 h1 h2
    simp [connect, hcg, hcd, hres, connectRetry_second_success f e1 h1 h2]
  · intro e1 e2 h1 h2 h3
    simp [connect, hcg, hcd, hres, connectRetry_third_success f e1 e2 h1 h2 h3]
  · intro e1 e2 e3 h1 h2 h3
    simp [connect, hcg, hcd, hres, connectRetry_all_fail f e1 e2 e3 h1 h2 h3]

/-- Witness for C2 at concrete inputs: with every attempt failing with
"boom", `connect` rejects with "boom" after exactly 3 attempts and two
backoffs of 1000 ms and 2000 ms. -/
theorem C2_retry_policy_witness :
    (connect (initialState "vk" "https://u") {}
        (fun _ => .ok { server_url := "wss://s", participant_token := "tok",
                        call_id := "c" })
        (fun _ => none) 0 (fun _ => some "boom")).result = .error "boom"
    ∧ (connect (initialState "vk" "https://u") {}
        (fun _ => .ok { server_url := "wss://s", participant_token := "tok",
                        call_id := "c" })
        (fun _ => none) 0 (fun _ => some "boom")).attemptsMade = 3
    ∧ (connect (initialState "vk" "https://u") {}
        (fun _ => .ok { server_url := "wss://s", participant_token := "tok",
                        call_id := "c" })
        (fun _ => none) 0 (fun _ => some "boom")).waits = [1000, 2000] :=
  (C2_retry_policy (initialState "vk" "https://u") {}
      (fun _ => .ok { server_url := "wss://s", participant_token := "tok",
                      call_id := "c" })
      (fun _ => none) 0 (fun _ => some "boom") rfl rfl
      { serverUrl := "wss://s", participantToken := "tok", callId := "c" }
      rfl).2.2.2.2 "boom" "boom" "boom" rfl rfl rfl

/-- C5: when `connect` fails overall — the connection details fail to
resolve, or all 3 attempts of the retry loop fail — the resulting status
has `connected = false`, `connecting = false` and `error` set to the
failure message; the same message is fanned out once to the error
subscriber set (`emitError` invokes every registered error handler with
it), and `connect` rejects with that very message (dual delivery). -/
theorem C5_overall_failure_dual_delivery (s : ClientState)
    (o : ConnectionOptions)
    (respond : NegotiationRequest → Except String RawConnectionDetails)
    (decode : String → Option JwtPayload) (now : Int) (f : Nat → Option String)
    (hcg : s.connectionStatus.connecting = false)
    (hcd : s.connectionStatus.connected = false) :
    (∀ e, (getOrRefreshConnectionDetails s.apiKey s.apiUrl
        s.cachedConnectionDetails o respond decode now).result = .error e →
      (connect s o respond decode now f).state.connectionStatus.connected = false
      ∧ (connect s o respond decode now f).state.connectionStatus.connecting = false
      ∧ (connect s o respond decode now f).state.connectionStatus.error = some e
      ∧ (connect s o respond decode now f).errorEvents = [e]
      ∧ (connect s o respond decode now f).result = .error e)
    ∧ (∀ d e1 e2 e3, (getOrRefreshConnectionDetails s.apiKey s.apiUrl
        s.cachedConnectionDetails o respond decode now).result = .ok d →
      f 1 = some e1 → f 2 = some e2 → f 3 = some e3 →
      (connect s o respond decode now f).state.connectionStatus.connected = false
      ∧ (connect s o respond decode now f).state.connectionStatus.connecting = false
      ∧ (connect s o respond decode now f).state.connectionStatus.error = some e3
      ∧ (connect s o respond decode now f).errorEvents = [e3]
      ∧ (connect s o respond decode now f).result = .error e3) := by
  constructor
  · intro e hres
    simp [connect, hcg, hcd, hres, mergeStatus]
  · intro d e1 e2 e3 hres h1 h2 h3
    simp [connect, hcg, hcd, hres, connectRetry_all_fail f e1 e2 e3 h1 h2 h3,
      mergeStatus]

/-- Witness for C5 at concrete inputs: a negotiation that fails with
"denied" is reflected in the status error field, in the error fan-out, and
in the rejection. -/
theorem C5_overall_failure_witness :
    (connect (initialState "vk5" "https://u5") {}
        (fun _ => .error "denied") (fun _ => none) 0
        (fun _ => none)).state.connectionStatus.connected = false
    ∧ (connect (initialState "vk5" "https://u5") {}
        (fun _ => .error "denied") (fun _ => none) 0
        (fun _ => none)).state.connectionStatus.connecting = false
    ∧ (connect (initialState "vk5" "https://u5") {}
        (fun _ => .error "denied") (fun _ => none) 0
        (fun _ => none)).state.connectionStatus.error = some "denied"
    ∧ (connect (initialState "vk5" "https://u5") {}
        (fun _ => .error "denied") (fun _ => none) 0
        (fun _ => none)).errorEvents = ["denied"]
    ∧ (connect (initialState "vk5" "https://u5") {}
        (fun _ => .error "denied") (fun _ => none) 0
        (fun _ => none)).result = .error "denied" :=
  (C5_overall_failure_dual_delivery (initialState "vk5" "https://u5") {}
      (fun _ => .error "denied") (fun _ => none) 0 (fun _ => none)
      rfl rfl).1 "denied" rfl

/-- C6 is falsified by a concrete run: a first `connect` whose negotiation
fails with "boom" leaves `error = "boom"` in the status; a second,
successful `connect` resolves — and `getStatus()` still reports the stale
`error = "boom"`, because `updateStatus` spreads patches over the previous
record instead of replacing it wholesale, and the success patch does not
name the error field. -/
theorem C6_counterexample_stale_error_after_success :
    (connect
      (connect (initialState "vk6" "https://u6") {}
          (fun _ => .error "boom") (fun _ => none) 0 (fun _ => none)).state
      {} (fun _ => .ok { server_url := "wss://s", participant_token := "tok",
                         call_id := "call-1" })
      (fun _ => none) 0 (fun _ => none)).result = .ok ()
    ∧ (connect
      (connect (initialState "vk6" "https://u6") {}
          (fun _ => .error "boom") (fun _ => none) 0 (fun _ => none)).state
      {} (fun _ => .ok { server_url := "wss://s", participant_token := "tok",
                         call_id := "call-1" })
      (fun _ => none) 0 (fun _ => none)).state.connectionStatus.error
      = some "boom" :=
  ⟨rfl, rfl⟩

/-- C6 amended: the status record is merged field-wise on every transition
(a patch that does not name a field leaves it unchanged), and the success
patch of `connect` does not name the error field — so a successful
`connect` carries the previous error message over unchanged, and a stale
error from an earlier failure remains visible in `getStatus()` after the
success. -/
theorem C6_amended_stale_error_persists (s : ClientState)
    (o : ConnectionOptions)
    (respond : NegotiationRequest → Except String RawConnectionDetails)
    (decode : String → Option JwtPayload) (now : Int) (f : Nat → Option String)
    (hcg : s.connectionStatus.connecting = false)
    (hcd : s.connectionStatus.connected = false)
    (d : ConnectionDetails)
    (hres : (getOrRefreshConnectionDetails s.apiKey s.apiUrl
        s.cachedConnectionDetails o respond decode now).result = .ok d)
    (hf : f 1 = none) :
    (connect s o respond decode now f).result = .ok ()
    ∧ (connect s o respond decode now f).state.connectionStatus.error
        = s.connectionStatus.error
    ∧ ∀ (st : ConnectionStatus) (p : StatusPatch), p.error = none →
        (mergeStatus st p).error = st.error := by
  refine ⟨?_, ?_, ?_⟩
  · simp [connect, hcg, hcd, hres, connectRetry_first_success f hf]
  · simp [connect, hcg, hcd, hres, connectRetry_first_success f hf, mergeStatus]
  · intro st p hp
    simp [mergeStatus, hp]

/-- Witness for the amended C6 at concrete inputs: a client carrying a
stale `error = "old"` connects successfully and the stale message is still
there. -/
theorem C6_amended_stale_error_witness :
    (connect
      { initialState "vk6w" "https://u6w" with
        connectionStatus :=
          { connected := false, connecting := false, error := some "old",
            callId := none } }
      {} (fun _ => .ok { server_url := "wss://s", participant_token := "tok",
                         call_id := "c" })
      (fun _ => none) 0 (fun _ => none)).result = .ok ()
    ∧ (connect
      { initialState "vk6w" "https://u6w" with
        connectionStatus :=
          { connected := false, connecting := false, error := some "old",
            callId := none } }
      {} (fun _ => .ok { server_url := "wss://s", participant_token := "tok",
                         call_id := "c" })
      (fun _ => none) 0 (fun _ => none)).state.connectionStatus.error
      = some "old" :=
  ⟨(C6_amended_stale_error_persists
      { initialState "vk6w" "https://u6w" with
        connectionStatus :=
          { connected := false, connecting := false, error := some "old",
            callId := none } } {}
      (fun _ => .ok { server_url := "wss://s", participant_token := "tok",
                      call_id := "c" })
      (fun _ => none) 0 (fun _ => none) rfl rfl
      { serverUrl := "wss://s", participantToken := "tok", callId := "c" }
      rfl rfl).1,
   ((C6_amended_stale_error_persists
      { initialState "vk6w" "https://u6w" with
        connectionStatus :=
          { connected := false, connecting := false, error := some "old",
            callId := none } } {}
      (fun _ => .ok { server_url := "wss://s", participant_token := "tok",
                      call_id := "c" })
      (fun _ => none) 0 (fun _ => none) rfl rfl
      { serverUrl := "wss://s", participantToken := "tok", callId := "c" }
      rfl rfl).2.1).trans rfl⟩
